import Mathlib

/-!
Shallow embedding of the wtd_api client library (src/api.py and
src/api_paths.py): the endpoint registry, the query-string builder, client
construction and the credential setter, and the fetch-and-decode routine.
The HTTP transport (requests.get) and the JSON decoder (json.loads) are
external collaborators and are passed in as functions.
-/

/-- Endpoint registry of src/api_paths.py: the module-level dict API mapping
each logical operation name to its fixed base URL. -/
def API : List (String × String) :=
  [("stock", "https://www.worldtradingdata.com/api/v1/stock"),
   ("mutual_fund", "https://www.worldtradingdata.com/api/v1/mutualfund"),
   ("intraday", "https://www.worldtradingdata.com/api/v1/intraday"),
   ("history", "https://www.worldtradingdata.com/api/v1/history"),
   ("history_msd", "https://www.worldtradingdata.com/api/v1/history_multi_single_day"),
   ("forex", "https://www.worldtradingdata.com/api/v1/forex"),
   ("forex_history", "https://www.worldtradingdata.com/api/v1/forex_history"),
   ("forex_single_day", "https://www.worldtradingdata.com/api/v1/forex_single_day"),
   ("search", "https://www.worldtradingdata.com/api/v1/stock_search")]

/-- Dictionary access API[k] as the operation methods use it. Every key the
methods pass is present in the registry, so the default is never reached. -/
def apiBase (k : String) : String := (API.lookup k).getD ""

/-- Success status constant SUCCESS = 200 of src/api.py. -/
def SUCCESS : Nat := 200

/-- Scalar Python values that the operation methods pass to the query-string
builder: str, int, bool. -/
inductive Scalar where
  | s (v : String)
  | i (v : Int)
  | b (v : Bool)
deriving DecidableEq, Repr

/-- Python str(x) on a scalar argument. -/
def Scalar.toStr : Scalar → String
  | Scalar.s v => v
  | Scalar.i v => toString v
  | Scalar.b v => if v then "True" else "False"

/-- Values a keyword argument can carry into _build_misc_string: None, a
scalar, or a list of scalars. For these types Python's test value == None is
true exactly on None. -/
inductive Val where
  | none
  | scalar (v : Scalar)
  | list (xs : List Scalar)
deriving DecidableEq, Repr

/-- Error taxonomy of src/api.py: APIKeyNotSet and APIAccessError, each
carrying its message string. -/
inductive ApiError where
  | apiKeyNotSet (msg : String)
  | apiAccessError (msg : String)
deriving DecidableEq, Repr

/-- Exact content of the triple-quoted message raised by WTDApi.__init__. -/
def apiKeyNotSetMsg : String :=
  "\n                API Key not set for this client.\n\n                Obtain one from https://worldtradingdata.com/\n                "

/-- Transport response as the HTTP collaborator returns it: the status code
and body text of requests.get (resp.status_code, resp.text). -/
structure Response where
  status_code : Nat
  text : String
deriving DecidableEq, Repr

/-- Fetch-and-decode routine _get_api_response of src/api.py, with the GET
already performed (its Response is the argument) and json.loads passed in as
the black-box decode collaborator: a non-SUCCESS status raises APIAccessError
with detail "Error: " followed by the raw body, otherwise the decoded body is
returned. -/
def get_api_response {J : Type} (decode : String → J) (resp : Response) :
    Except ApiError J :=
  if resp.status_code ≠ SUCCESS then
    Except.error (ApiError.apiAccessError ("Error: " ++ resp.text))
  else
    Except.ok (decode resp.text)

/-- Client state: WTDApi holds exactly one field, the api_key token. -/
structure WTDApi where
  api_key : String
deriving DecidableEq, Repr

/-- WTDApi.__init__: raises APIKeyNotSet when `not api_key` holds, else stores
the key. The argument defaults to None (here Option.none), and the empty
string is the only falsy str, so construction fails exactly on absence and on
the empty token. -/
def WTDApi.init (api_key : Option String) : Except ApiError WTDApi :=
  match api_key with
  | Option.none => Except.error (ApiError.apiKeyNotSet apiKeyNotSetMsg)
  | Option.some k =>
    if k = "" then Except.error (ApiError.apiKeyNotSet apiKeyNotSetMsg)
    else Except.ok ⟨k⟩

/-- WTDApi.set_api_key: replaces the stored key; no validation. The client
has no other field, so the whole resulting state is the new key. -/
def WTDApi.set_api_key (_api : WTDApi) (api_key : String) : WTDApi :=
  ⟨api_key⟩

/-- Loop body of _build_misc_string, one iteration of
`for key, value in kwargs.items()`: None is skipped (continue); a list value
appends key + "=" + the comma-join of str(x) over its elements + "&"; any
other value appends key + "=" + str(value) + "&". -/
def buildStep (misc : String) (kv : String × Val) : String :=
  match kv.2 with
  | Val.none => misc
  | Val.scalar v => misc ++ (kv.1 ++ "=" ++ (Scalar.toStr v ++ "&"))
  | Val.list xs =>
    misc ++ (kv.1 ++ "=" ++ (String.intercalate "," (xs.map Scalar.toStr) ++ "&"))

/-- WTDApi._build_misc_string: misc starts as "?", the loop folds buildStep
over the keyword arguments in order, and "api_token=" + self.api_key is
appended last. -/
def WTDApi.build_misc_string (api : WTDApi) (kwargs : List (String × Val)) : String :=
  (kwargs.foldl buildStep "?") ++ ("api_token=" ++ api.api_key)

/-- URL built by WTDApi.stocks: API["stock"] plus the query string over
symbol, sort_by, sort_order, in that order. -/
def WTDApi.stocks_url (api : WTDApi) (symbols sort_by sort_order : Val) : String :=
  apiBase "stock" ++ api.build_misc_string
    [("symbol", symbols), ("sort_by", sort_by), ("sort_order", sort_order)]

/-- WTDApi.stocks: builds the URL and delegates to _get_api_response, with
requests.get as the transport collaborator and json.loads as decode. -/
def WTDApi.stocks {J : Type} (api : WTDApi) (transport : String → Response)
    (decode : String → J) (symbols sort_by sort_order : Val) : Except ApiError J :=
  get_api_response decode (transport (api.stocks_url symbols sort_by sort_order))

/-- URL built by WTDApi.mutual_fund: API["mutual_fund"] plus the query string
over symbol, sort_order, sort_by, in that order. -/
def WTDApi.mutual_fund_url (api : WTDApi) (symbols sort_order sort_by : Val) : String :=
  apiBase "mutual_fund" ++ api.build_misc_string
    [("symbol", symbols), ("sort_order", sort_order), ("sort_by", sort_by)]

/-- WTDApi.mutual_fund: URL build plus fetch-and-decode. -/
def WTDApi.mutual_fund {J : Type} (api : WTDApi) (transport : String → Response)
    (decode : String → J) (symbols sort_order sort_by : Val) : Except ApiError J :=
  get_api_response decode (transport (api.mutual_fund_url symbols sort_order sort_by))

/-- URL built by WTDApi.intraday over symbol, interval, range, sort,
formatted; in Python interval defaults to 1 and range to 7. -/
def WTDApi.intraday_url (api : WTDApi) (symbol interval range sort formatted : Val) : String :=
  apiBase "intraday" ++ api.build_misc_string
    [("symbol", symbol), ("interval", interval), ("range", range),
     ("sort", sort), ("formatted", formatted)]

/-- WTDApi.intraday: URL build plus fetch-and-decode. -/
def WTDApi.intraday {J : Type} (api : WTDApi) (transport : String → Response)
    (decode : String → J) (symbol interval range sort formatted : Val) : Except ApiError J :=
  get_api_response decode (transport (api.intraday_url symbol interval range sort formatted))

/-- URL built by WTDApi.historic_data over symbol, date_from, date_to, sort,
formatted. -/
def WTDApi.historic_data_url (api : WTDApi)
    (symbol date_from date_to sort formatted : Val) : String :=
  apiBase "history" ++ api.build_misc_string
    [("symbol", symbol), ("date_from", date_from), ("date_to", date_to),
     ("sort", sort), ("formatted", formatted)]

/-- WTDApi.historic_data: URL build plus fetch-and-decode. -/
def WTDApi.historic_data {J : Type} (api : WTDApi) (transport : String → Response)
    (decode : String → J) (symbol date_from date_to sort formatted : Val) :
    Except ApiError J :=
  get_api_response decode
    (transport (api.historic_data_url symbol date_from date_to sort formatted))

/-- URL built by WTDApi.historic_multi_single_day over symbol, date, sort,
formatted. -/
def WTDApi.historic_multi_single_day_url (api : WTDApi)
    (symbol date sort formatted : Val) : String :=
  apiBase "history_msd" ++ api.build_misc_string
    [("symbol", symbol), ("date", date), ("sort", sort), ("formatted", formatted)]

/-- WTDApi.historic_multi_single_day: URL build plus fetch-and-decode. -/
def WTDApi.historic_multi_single_day {J : Type} (api : WTDApi)
    (transport : String → Response) (decode : String → J)
    (symbol date sort formatted : Val) : Except ApiError J :=
  get_api_response decode
    (transport (api.historic_multi_single_day_url symbol date sort formatted))

/-- URL built by WTDApi.forex over its single argument base. -/
def WTDApi.forex_url (api : WTDApi) (base : Val) : String :=
  apiBase "forex" ++ api.build_misc_string [("base", base)]

/-- WTDApi.forex: URL build plus fetch-and-decode. -/
def WTDApi.forex {J : Type} (api : WTDApi) (transport : String → Response)
    (decode : String → J) (base : Val) : Except ApiError J :=
  get_api_response decode (transport (api.forex_url base))

/-- URL built by WTDApi.forex_historic over base, convert_to, sort,
formatted. -/
def WTDApi.forex_historic_url (api : WTDApi) (base convert_to sort formatted : Val) : String :=
  apiBase "forex_history" ++ api.build_misc_string
    [("base", base), ("convert_to", convert_to), ("sort", sort), ("formatted", formatted)]

/-- WTDApi.forex_historic: URL build plus fetch-and-decode. -/
def WTDApi.forex_historic {J : Type} (api : WTDApi) (transport : String → Response)
    (decode : String → J) (base convert_to sort formatted : Val) : Except ApiError J :=
  get_api_response decode (transport (api.forex_historic_url base convert_to sort formatted))

/-- URL built by WTDApi.forex_historic_single_day over base, date,
formatted. -/
def WTDApi.forex_historic_single_day_url (api : WTDApi) (base date formatted : Val) : String :=
  apiBase "forex_single_day" ++ api.build_misc_string
    [("base", base), ("date", date), ("formatted", formatted)]

/-- WTDApi.forex_historic_single_day: URL build plus fetch-and-decode. -/
def WTDApi.forex_historic_single_day {J : Type} (api : WTDApi)
    (transport : String → Response) (decode : String → J)
    (base date formatted : Val) : Except ApiError J :=
  get_api_response decode (transport (api.forex_historic_single_day_url base date formatted))

/-- URL built by WTDApi.search: API["search"] plus the query string over the
eight search arguments in method order, search_term (a required str) first. -/
def WTDApi.search_url (api : WTDApi) (search_term : String)
    (search_by stock_exchange currency limit page sort_by sort_order : Val) : String :=
  apiBase "search" ++ api.build_misc_string
    [("search_term", Val.scalar (Scalar.s search_term)), ("search_by", search_by),
     ("stock_exchange", stock_exchange), ("currency", currency), ("limit", limit),
     ("page", page), ("sort_by", sort_by), ("sort_order", sort_order)]

/-- WTDApi.search: URL build plus fetch-and-decode. -/
def WTDApi.search {J : Type} (api : WTDApi) (transport : String → Response)
    (decode : String → J) (search_term : String)
    (search_by stock_exchange currency limit page sort_by sort_order : Val) :
    Except ApiError J :=
  get_api_response decode (transport (api.search_url search_term search_by
    stock_exchange currency limit page sort_by sort_order))

/-- JSON values as the black-box decode collaborator returns them. -/
inductive Json where
  | null
  | num (n : Int)
  | str (s : String)
  | arr (xs : List Json)
  | obj (fields : List (String × Json))

/-- Substring containment: pat occurs contiguously in s. -/
def strContains (s pat : String) : Prop := ∃ a b : String, s = a ++ pat ++ b

/-- Fragment contributed to the query string by one keyword argument: empty
for None, otherwise the key, an equals sign, the serialized value and an
ampersand. -/
def fragStr (kv : String × Val) : String :=
  match kv.2 with
  | Val.none => ""
  | Val.scalar v => kv.1 ++ "=" ++ (Scalar.toStr v ++ "&")
  | Val.list xs => kv.1 ++ "=" ++ (String.intercalate "," (xs.map Scalar.toStr) ++ "&")

/-- Concatenation of the fragments of a keyword-argument list, in order. -/
def fragsStr : List (String × Val) → String
  | [] => ""
  | kv :: l => fragStr kv ++ fragsStr l

theorem str_append_assoc (a b c : String) : a ++ b ++ c = a ++ (b ++ c) := by
  apply String.ext
  simp [List.append_assoc]

theorem buildStep_eq (misc : String) (kv : String × Val) :
    buildStep misc kv = misc ++ fragStr kv := by
  rcases kv with ⟨k, v⟩
  cases v <;> simp [buildStep, fragStr, String.append_empty]

theorem foldl_buildStep (l : List (String × Val)) :
    ∀ acc : String, l.foldl buildStep acc = acc ++ fragsStr l := by
  induction l with
  | nil => intro acc; simp [fragsStr, String.append_empty]
  | cons kv l ih =>
    intro acc
    simp only [List.foldl_cons, fragsStr, ih, buildStep_eq, str_append_assoc]

/-- Closed form of the builder: question mark, then the fragments in order,
then the token parameter. -/
theorem build_misc_string_eq (api : WTDApi) (kwargs : List (String × Val)) :
    api.build_misc_string kwargs
      = "?" ++ fragsStr kwargs ++ ("api_token=" ++ api.api_key) := by
  simp only [WTDApi.build_misc_string, foldl_buildStep]

theorem fragsStr_append (l₁ l₂ : List (String × Val)) :
    fragsStr (l₁ ++ l₂) = fragsStr l₁ ++ fragsStr l₂ := by
  induction l₁ with
  | nil => simp [fragsStr, String.empty_append]
  | cons kv l ih => simp [fragsStr, ih, str_append_assoc]

theorem intercalate3 (x y z : String) :
    String.intercalate "," [x, y, z] = x ++ "," ++ y ++ "," ++ z := rfl

theorem intercalate_nil : String.intercalate "," [] = "" := rfl

/-- C1: for every keyword-argument list and every stored token, the string
returned by _build_misc_string is exactly a question mark, then the argument
fragments, then "api_token=" and the token as the final parameter with
nothing after it — it starts with the question mark and ends with the token
fragment, also when every other argument is absent. -/
theorem C1_build_misc_string_shape (api : WTDApi) (kwargs : List (String × Val)) :
    ∃ m : String,
      api.build_misc_string kwargs = "?" ++ m ++ ("api_token=" ++ api.api_key) :=
  ⟨fragsStr kwargs, build_misc_string_eq api kwargs⟩

/-- C2: a list-valued argument with elements a, b, c contributes exactly the
fragment name, equals sign, the comma-joined string forms of a, b, c in list
order, and an ampersand — wherever the argument occurs among the keyword
arguments. -/
theorem C2_list_fragment (api : WTDApi) (pre post : List (String × Val))
    (name : String) (a b c : Scalar) :
    api.build_misc_string (pre ++ (name, Val.list [a, b, c]) :: post)
      = "?" ++ fragsStr pre
          ++ (name ++ "=" ++ (Scalar.toStr a ++ "," ++ Scalar.toStr b ++ ","
              ++ Scalar.toStr c ++ "&"))
          ++ fragsStr post ++ ("api_token=" ++ api.api_key) := by
  simp [build_misc_string_eq, fragsStr_append, fragsStr, fragStr, intercalate3,
    str_append_assoc]

/-- C3: a keyword argument whose value is absent (None) contributes nothing
to the built query string — the result is the same string built without that
argument, so neither the key nor an empty fragment appears. -/
theorem C3_none_skipped (api : WTDApi) (pre post : List (String × Val)) (name : String) :
    api.build_misc_string (pre ++ (name, Val.none) :: post)
      = api.build_misc_string (pre ++ post) := by
  simp [build_misc_string_eq, fragsStr_append, fragsStr, fragStr,
    String.empty_append, str_append_assoc]

/-- C4: construction with an absent or empty token fails with APIKeyNotSet
carrying the credentials message, and construction with a non-empty token
succeeds storing exactly that token; as every Option String is none, some of
the empty string, or some of a non-empty string, no other outcome exists. -/
theorem C4_init_dichotomy (t : Option String) :
    ((t = Option.none ∨ t = Option.some "") →
      WTDApi.init t = Except.error (ApiError.apiKeyNotSet apiKeyNotSetMsg))
    ∧ (∀ s : String, t = Option.some s → s ≠ "" → WTDApi.init t = Except.ok ⟨s⟩) := by
  constructor
  · rintro (rfl | rfl) <;> simp [WTDApi.init]
  · rintro s rfl hs
    simp [WTDApi.init, hs]

theorem C4_init_dichotomy_witness :
    WTDApi.init (Option.some "") = Except.error (ApiError.apiKeyNotSet apiKeyNotSetMsg)
    ∧ WTDApi.init (Option.some "demo") = Except.ok ⟨"demo"⟩ :=
  ⟨(C4_init_dichotomy (Option.some "")).1 (Or.inr rfl),
   (C4_init_dichotomy (Option.some "demo")).2 "demo" rfl (by decide)⟩

/-- C5: whenever the transport response status is not SUCCESS, the
fetch-and-decode routine fails with APIAccessError whose detail is the string
"Error: " followed by the raw body — in particular the detail contains the
body — and the result is the same for every decode collaborator, so the JSON
decode step is never reached. -/
theorem C5_non_success_error {J : Type} (decode : String → J) (resp : Response)
    (h : resp.status_code ≠ SUCCESS) :
    get_api_response decode resp
      = Except.error (ApiError.apiAccessError ("Error: " ++ resp.text))
    ∧ strContains ("Error: " ++ resp.text) resp.text := by
  refine ⟨by simp [get_api_response, h], ⟨"Error: ", "", ?_⟩⟩
  simp [String.append_empty]

theorem C5_non_success_error_witness :
    get_api_response (fun s => s) ⟨404, "not found"⟩
      = Except.error (ApiError.apiAccessError "Error: not found")
    ∧ strContains "Error: not found" "not found" :=
  C5_non_success_error (fun s => s) ⟨404, "not found"⟩ (by decide)

/-- C6: with a transport response of status SUCCESS, stocks returns the
decoded response body verbatim as its Ok result, for every decode
collaborator — no error is raised and no transformation is applied. -/
theorem C6_stocks_success {J : Type} (api : WTDApi) (transport : String → Response)
    (decode : String → J) (symbols sort_by sort_order : Val)
    (h : (transport (api.stocks_url symbols sort_by sort_order)).status_code = SUCCESS) :
    api.stocks transport decode symbols sort_by sort_order
      = Except.ok (decode (transport (api.stocks_url symbols sort_by sort_order)).text) := by
  simp [WTDApi.stocks, get_api_response, h]

/-- Mock transport returning status 200 and the JSON object body mapping foo
to 1. -/
def mockTransport (_url : String) : Response := ⟨200, "\x7b\"foo\": 1\x7d"⟩

/-- Mock decode collaborator mapping that body to the object with field foo
equal to 1. -/
def mockDecode (s : String) : Json :=
  if s = "\x7b\"foo\": 1\x7d" then Json.obj [("foo", Json.num 1)] else Json.null

theorem C6_stocks_success_witness :
    (⟨"demotoken"⟩ : WTDApi).stocks mockTransport mockDecode
        (Val.scalar (Scalar.s "AAPL")) Val.none Val.none
      = Except.ok (Json.obj [("foo", Json.num 1)]) :=
  C6_stocks_success ⟨"demotoken"⟩ mockTransport mockDecode
    (Val.scalar (Scalar.s "AAPL")) Val.none Val.none rfl

/-- C7: search on the term apple with stock_exchange the list NYSE, NASDAQ
and every other optional argument absent builds, on top of the fixed search
base URL of the registry, a URL whose query contains the fragments
search_term=apple and stock_exchange=NYSE,NASDAQ and ends with api_token=
followed by the stored token. -/
theorem C7_search_url (key : String) :
    strContains ((⟨key⟩ : WTDApi).search_url "apple" Val.none
        (Val.list [Scalar.s "NYSE", Scalar.s "NASDAQ"]) Val.none Val.none Val.none
        Val.none Val.none)
      "search_term=apple"
    ∧ strContains ((⟨key⟩ : WTDApi).search_url "apple" Val.none
        (Val.list [Scalar.s "NYSE", Scalar.s "NASDAQ"]) Val.none Val.none Val.none
        Val.none Val.none)
      "stock_exchange=NYSE,NASDAQ"
    ∧ ∃ p : String,
        (⟨key⟩ : WTDApi).search_url "apple" Val.none
            (Val.list [Scalar.s "NYSE", Scalar.s "NASDAQ"]) Val.none Val.none Val.none
            Val.none Val.none
          = p ++ ("api_token=" ++ key) :=
  ⟨⟨"https://www.worldtradingdata.com/api/v1/stock_search?",
    "&stock_exchange=NYSE,NASDAQ&api_token=" ++ key, rfl⟩,
   ⟨"https://www.worldtradingdata.com/api/v1/stock_search?search_term=apple&",
    "&api_token=" ++ key, rfl⟩,
   ⟨"https://www.worldtradingdata.com/api/v1/stock_search?search_term=apple&stock_exchange=NYSE,NASDAQ&",
    rfl⟩⟩

/-- C8: the setter replaces exactly the stored token — the resulting client
state is the one-field record holding the new token — every query string
built afterwards carries the new token in its final api_token fragment, and
strings built earlier are pure values still determined by the token they were
built with; no other client state exists to be modified. -/
theorem C8_set_api_key_frame (api : WTDApi) (k : String) (kwargs : List (String × Val)) :
    api.set_api_key k = ⟨k⟩
    ∧ (api.set_api_key k).build_misc_string kwargs
        = "?" ++ fragsStr kwargs ++ ("api_token=" ++ k)
    ∧ api.build_misc_string kwargs
        = "?" ++ fragsStr kwargs ++ ("api_token=" ++ api.api_key) :=
  ⟨rfl, build_misc_string_eq ⟨k⟩ kwargs, build_misc_string_eq api kwargs⟩

/-- C9: only the absent marker None is skipped — an argument passed as the
empty string is emitted as its name, equals sign and ampersand with an empty
value, and an argument passed as the empty list is emitted the same way (the
comma-join of no elements), not omitted. -/
theorem C9_empty_values_emitted (api : WTDApi) (pre post : List (String × Val))
    (name : String) :
    api.build_misc_string (pre ++ (name, Val.scalar (Scalar.s "")) :: post)
      = "?" ++ fragsStr pre ++ (name ++ "=" ++ "&") ++ fragsStr post
          ++ ("api_token=" ++ api.api_key)
    ∧ api.build_misc_string (pre ++ (name, Val.list []) :: post)
      = "?" ++ fragsStr pre ++ (name ++ "=" ++ "&") ++ fragsStr post
          ++ ("api_token=" ++ api.api_key) := by
  constructor <;>
    simp [build_misc_string_eq, fragsStr_append, fragsStr, fragStr, Scalar.toStr,
      intercalate_nil, String.empty_append, str_append_assoc]

/-- C10: the credential setter accepts the empty token that construction
rejects; the client then holds the empty token, and every query string built
afterwards ends with api_token= followed by nothing. -/
theorem C10_setter_accepts_empty (api : WTDApi) (kwargs : List (String × Val)) :
    (api.set_api_key "").api_key = ""
    ∧ WTDApi.init (Option.some "")
        = Except.error (ApiError.apiKeyNotSet apiKeyNotSetMsg)
    ∧ (api.set_api_key "").build_misc_string kwargs
        = "?" ++ fragsStr kwargs ++ "api_token=" := by
  refine ⟨rfl, rfl, ?_⟩
  have h := build_misc_string_eq ⟨""⟩ kwargs
  simpa [String.append_empty] using h
